import Mathlib

/-!
Verification of the MCP-style todo tool server
(`backend/mcpserver`: `mcp_server.py`, `tools/*.py`, `auth.py`, `errors.py`,
`schemas.py`) against its natural-language specification.

The Python code is shallowly embedded:
* the database session is a `List Task` in insertion order; `SELECT ... WHERE`
  becomes `List.filter` / `List.find?`, `ORDER BY created_at DESC` becomes a
  stable insertion sort descending on `created_at`;
* Python `hash` (a process-random string hash) is an explicit parameter
  `h : String → Nat` of every function that uses it;
* `uuid.uuid4()` (the `default_factory` of `Task.id`) and `datetime.now` are
  explicit parameters `newId : String` and `now : Nat`;
* a raised exception is an `Except.error` carrying `str(e)`.
-/

namespace Mcp

/-- `mcpserver.errors.MCPToolError`: message plus stable machine code. -/
structure MCPToolError where
  message : String
  error_code : String
deriving DecidableEq, Repr

/-- `mcpserver.errors.ValidationError`. -/
def ValidationError (m : String) : MCPToolError :=
  { message := m, error_code := "VALIDATION_ERROR" }

/-- `mcpserver.errors.NotFoundError`: message is built from the resource name
and the identifier exactly as the f-string does. -/
def NotFoundError (resource identifier : String) : MCPToolError :=
  { message := resource ++ " " ++ identifier ++ " not found",
    error_code := "NOT_FOUND" }

/-- `mcpserver.errors.UnauthorizedError`. -/
def UnauthorizedError (m : String) : MCPToolError :=
  { message := m, error_code := "UNAUTHORIZED" }

/-- `mcpserver.errors.DatabaseError`. -/
def DatabaseError (m : String) : MCPToolError :=
  { message := m, error_code := "DATABASE_ERROR" }

/-- One item of an envelope's `content` array (always `{"type": "text", ...}`). -/
structure ContentItem where
  type : String
  text : String
deriving DecidableEq, Repr

/-- `mcpserver.schemas.TaskItem`: one task as serialized by `list_tasks`. -/
structure TaskItem where
  id : Nat
  title : String
  description : Option String
  completed : Bool
  created_at : Nat
  updated_at : Option Nat
deriving DecidableEq, Repr

/-- The `structuredContent` of a success envelope: the single-task shape shared
by `AddTaskResponse` / `CompleteTaskResponse` / `UpdateTaskResponse` /
`DeleteTaskResponse` (fields `task_id`, `status`, `title`, `message`), or the
`ListTasksResponse` shape (fields `tasks`, `count`, `status`). -/
inductive SCPayload where
  | task (task_id : Nat) (status : String) (title : String) (message : String)
  | list (tasks : List TaskItem) (count : Nat) (status : String)
deriving DecidableEq, Repr

/-- The MCP response envelope every tool returns. -/
structure Envelope where
  content : List ContentItem
  isError : Bool
  structuredContent : Option SCPayload
deriving DecidableEq, Repr

/-- `mcpserver.errors.create_success_response`.  Every call site passes a
non-empty structured dict, so the truthiness guard always includes it. -/
def create_success_response (content_text : String) (structured_content : Option SCPayload) :
    Envelope :=
  { content := [{ type := "text", text := content_text }],
    isError := false,
    structuredContent := structured_content }

/-- `mcpserver.errors.create_error_response`: the error code is dropped, only
the message survives into the envelope. -/
def create_error_response (e : MCPToolError) : Envelope :=
  { content := [{ type := "text", text := e.message }],
    isError := true,
    structuredContent := none }

/-- `src.models.task.Task`: `id` is a string primary key (UUID by default),
timestamps are `Nat`. -/
structure Task where
  id : String
  user_id : String
  title : String
  description : Option String
  completed : Bool
  created_at : Nat
  updated_at : Option Nat
deriving DecidableEq, Repr

/-- A `task_id` tool parameter, `str | int` in the Pydantic schemas. -/
inductive TaskId where
  | str (s : String)
  | num (n : Nat)
deriving DecidableEq, Repr

/-- Python `str(task_id)`, applied before comparing against `Task.id`. -/
def TaskId.pyStr : TaskId → String
  | .str s => s
  | .num n => Nat.repr n

/-- Python `s.isdigit()`: non-empty and all characters decimal digits. -/
def isDigitStr (s : String) : Bool :=
  decide (0 < s.length) && s.data.all Char.isDigit

/-- The `task_id` every success payload reports:
`int(task.id) if task.id.isdigit() else hash(task.id) % (10 ** 8)`. -/
def taskIdOut (h : String → Nat) (id : String) : Nat :=
  if isDigitStr id then (String.toNat? id).getD 0 else h id % 10 ^ 8

/-- The `TaskItem` built from a stored task by `list_tasks`. -/
def toItem (h : String → Nat) (t : Task) : TaskItem :=
  { id := taskIdOut h t.id, title := t.title, description := t.description,
    completed := t.completed, created_at := t.created_at,
    updated_at := t.updated_at }

/-- Pydantic `user_id: str = Field(..., min_length=1)`. -/
def validUserId (u : String) : Bool := decide (1 ≤ u.length)

/-- Pydantic `title: str = Field(..., min_length=1, max_length=200)`. -/
def validTitle (t : String) : Bool := decide (1 ≤ t.length) && decide (t.length ≤ 200)

/-- Pydantic `description: Optional[str] = Field(None, max_length=1000)`. -/
def validDescription : Option String → Bool
  | none => true
  | some d => decide (d.length ≤ 1000)

/-- Pydantic pattern `^(all|pending|completed)$` on `ListTasksParams.status`. -/
def validStatus (s : String) : Bool :=
  s == "all" || s == "pending" || s == "completed"

/-- `SELECT ... WHERE Task.id == id_str AND Task.user_id == user_id` followed by
`.first()`: the first stored task matching both. -/
def findTask (db : List Task) (idStr u : String) : Option Task :=
  db.find? (fun t => t.id == idStr && t.user_id == u)

/-- The session mutating the ORM object returned by `.first()`: replace the
first task matching id and owner, leave the rest in place. -/
def replaceFirst (idStr u : String) (t' : Task) : List Task → List Task
  | [] => []
  | t :: rest =>
      if t.id == idStr && t.user_id == u then t' :: rest
      else t :: replaceFirst idStr u t' rest

/-- `session.delete(task)` on the task returned by `.first()`: drop the first
task matching id and owner. -/
def eraseFirst (idStr u : String) : List Task → List Task
  | [] => []
  | t :: rest =>
      if t.id == idStr && t.user_id == u then rest
      else t :: eraseFirst idStr u rest

/-- The completion-flag filter `list_tasks` adds for a non-"all" status. -/
def statusMatch (s : String) (t : Task) : Bool :=
  if s == "completed" then t.completed
  else if s == "pending" then !t.completed
  else true

/-- One step of the stable descending sort modelling
`ORDER BY created_at DESC`: walk past every earlier element with a
greater-or-equal timestamp, so equal timestamps keep insertion order. -/
def insertDesc (t : Task) : List Task → List Task
  | [] => [t]
  | u :: rest =>
      if t.created_at ≤ u.created_at then u :: insertDesc t rest
      else t :: u :: rest

/-- Stable sort of the selected rows, timestamps descending. -/
def sortDesc (l : List Task) : List Task :=
  l.foldl (fun acc t => insertDesc t acc) []

/-- The rows `list_tasks` selects: owner filter, optional status filter,
ordered by creation timestamp descending (stable). -/
def selectTasks (db : List Task) (u s : String) : List Task :=
  sortDesc (db.filter (fun t => t.user_id == u && statusMatch s t))

/-- `mcpserver.tools.add_task.add_task` with the session present.  `newId` is
the UUID the `Task` default factory generates, `now` the creation clock. -/
def add_task (h : String → Nat) (newId : String) (now : Nat)
    (user_id title : String) (description : Option String)
    (db : List Task) : Envelope × List Task :=
  if !(validUserId user_id && validTitle title && validDescription description) then
    (create_error_response (ValidationError "add_task parameter validation failed"), db)
  else
    let task : Task :=
      { id := newId, user_id := user_id, title := title,
        description := description, completed := false,
        created_at := now, updated_at := none }
    (create_success_response
        ("Task '" ++ title ++ "' created successfully")
        (some (.task (taskIdOut h newId) "created" title "Task created successfully")),
      db ++ [task])

/-- `mcpserver.tools.list_tasks.list_tasks` with the session present.  It reads
the store and returns an envelope; the store is unchanged. -/
def list_tasks (h : String → Nat) (user_id status : String)
    (db : List Task) : Envelope :=
  if !(validUserId user_id && validStatus status) then
    create_error_response (ValidationError "list_tasks parameter validation failed")
  else
    let items := (selectTasks db user_id status).map (toItem h)
    create_success_response
      ("Retrieved " ++ Nat.repr items.length ++ " task(s) with status '" ++ status ++ "'")
      (some (.list items items.length "success"))

/-- `mcpserver.tools.complete_task.complete_task` with the session present:
select by `(str(task_id), user_id)`, absent → NotFoundError envelope, else flip
the completion flag and stamp `updated_at`. -/
def complete_task (h : String → Nat) (now : Nat) (user_id : String)
    (tid : TaskId) (db : List Task) : Envelope × List Task :=
  if !(validUserId user_id) then
    (create_error_response (ValidationError "complete_task parameter validation failed"), db)
  else
    let idStr := tid.pyStr
    match findTask db idStr user_id with
    | none => (create_error_response (NotFoundError "Task" idStr), db)
    | some task =>
        let newCompleted := !task.completed
        let statusStr := if newCompleted then "completed" else "uncompleted"
        let task' := { task with completed := newCompleted, updated_at := some now }
        (create_success_response
            ("Task '" ++ task.title ++ "' marked as " ++ statusStr)
            (some (.task (taskIdOut h task.id) statusStr task.title
              ("Task marked as " ++ statusStr))),
          replaceFirst idStr user_id task' db)

/-- `mcpserver.tools.update_task.update_task` with the session present: the
model validator requires at least one of title/description; a provided field is
written, an absent one keeps the stored value. -/
def update_task (h : String → Nat) (now : Nat) (user_id : String)
    (tid : TaskId) (title description : Option String)
    (db : List Task) : Envelope × List Task :=
  if !(validUserId user_id
      && (match title with | none => true | some t => validTitle t)
      && validDescription description
      && (title.isSome || description.isSome)) then
    (create_error_response (ValidationError "update_task parameter validation failed"), db)
  else
    let idStr := tid.pyStr
    match findTask db idStr user_id with
    | none => (create_error_response (NotFoundError "Task" idStr), db)
    | some task =>
        let task' := { task with
          title := title.getD task.title,
          description := (match description with
            | some d => some d
            | none => task.description),
          updated_at := some now }
        (create_success_response
            ("Task '" ++ task'.title ++ "' updated successfully")
            (some (.task (taskIdOut h task.id) "updated" task'.title
              "Task updated successfully")),
          replaceFirst idStr user_id task' db)

/-- `mcpserver.tools.delete_task.delete_task` with the session present: select
by `(str(task_id), user_id)`, absent → NotFoundError envelope, else hard
delete. -/
def delete_task (h : String → Nat) (user_id : String) (tid : TaskId)
    (db : List Task) : Envelope × List Task :=
  if !(validUserId user_id) then
    (create_error_response (ValidationError "delete_task parameter validation failed"), db)
  else
    let idStr := tid.pyStr
    match findTask db idStr user_id with
    | none => (create_error_response (NotFoundError "Task" idStr), db)
    | some task =>
        (create_success_response
            ("Task '" ++ task.title ++ "' deleted successfully")
            (some (.task (taskIdOut h task.id) "deleted" task.title
              "Task deleted successfully")),
          eraseFirst idStr user_id db)

/-- Worker for `splitWS`: `cur` holds the characters of the word in progress,
reversed. -/
def splitWSAux : List Char → List Char → List String
  | [], cur => if cur.isEmpty then [] else [String.mk cur.reverse]
  | c :: cs, cur =>
      if c.isWhitespace then
        if cur.isEmpty then splitWSAux cs []
        else String.mk cur.reverse :: splitWSAux cs []
      else splitWSAux cs (c :: cur)

/-- Python `header.split()` — split on whitespace runs, no empty parts. -/
def splitWS (s : String) : List String :=
  splitWSAux s.data []

/-- Python `s.lower()`, character by character. -/
def lowerStr (s : String) : String :=
  String.mk (s.data.map Char.toLower)

/-- `mcpserver.auth.extract_token_from_header`: a raised `ValueError` is
`Except.error` carrying the message. -/
def extract_token_from_header (auth_header : Option String) : Except String String :=
  match auth_header with
  | none => .error "Authorization header is required"
  | some s =>
    if s.isEmpty then .error "Authorization header is required"
    else
      match splitWS s with
      | [p, t] =>
          if lowerStr p == "bearer" then .ok t
          else .error "Invalid Authorization header format. Expected: Bearer <token>"
      | _ => .error "Invalid Authorization header format. Expected: Bearer <token>"

/-- One registry entry of `TodoMCPServer.tools` (the `inputSchema` is the JSON
schema Pydantic renders for the params model, kept as an opaque tag here). -/
structure ToolInfo where
  name : String
  description : String
  inputSchema : String
deriving DecidableEq, Repr

/-- The keyword arguments a tool invocation may carry (`**arguments`). -/
structure ToolArgs where
  user_id : Option String
  title : Option String
  description : Option String
  task_id : Option TaskId
  status : Option String
deriving DecidableEq, Repr

/-- A registered handler: given the arguments and the session it either
returns an envelope and the new store (`.ok`) or raises (`.error str(e)`). -/
def Handler : Type :=
  ToolArgs → List Task → Except String (Envelope × List Task)

/-- `TodoMCPServer` state: `tools` and `tool_handlers`, both insertion-ordered. -/
structure ServerState where
  tools : List ToolInfo
  tool_handlers : List (String × Handler)

/-- `TodoMCPServer.register_tool`. -/
def register_tool (st : ServerState) (name description inputSchema : String)
    (handler : Handler) : ServerState :=
  { tools := st.tools ++
      [{ name := name, description := description, inputSchema := inputSchema }],
    tool_handlers := st.tool_handlers ++ [(name, handler)] }

/-- `self.tool_handlers[name]` lookup (names are registered at most once). -/
def lookupHandler (st : ServerState) (name : String) : Option Handler :=
  (st.tool_handlers.find? (fun p => p.fst == name)).map Prod.snd

/-- `TodoMCPServer.call_tool`: an unregistered name RAISES
`ValueError(f"Tool '{name}' not found")` (the check sits before the
`try` block); a handler that raises is caught and converted to an
`isError` envelope embedding `str(e)`. -/
def call_tool (st : ServerState) (name : String) (args : ToolArgs)
    (db : List Task) : Except String (Envelope × List Task) :=
  match lookupHandler st name with
  | none => .error ("Tool '" ++ name ++ "' not found")
  | some handler =>
    match handler args db with
    | .ok r => .ok r
    | .error msg =>
        .ok ({ content := [{ type := "text", text := "Error calling tool: " ++ msg }],
               isError := true,
               structuredContent := none }, db)

/-- `TodoMCPServer.get_tools_list`: the registry values in insertion order. -/
def get_tools_list (st : ServerState) : List ToolInfo :=
  st.tools

/-- The handler registered under `"add_task"`: `handler(**arguments,
session=session)` — a missing required keyword argument raises `TypeError`
before the handler body runs. -/
def add_task_handler (h : String → Nat) (newId : String) (now : Nat) : Handler :=
  fun args db =>
    match args.user_id, args.title with
    | some u, some t => .ok (add_task h newId now u t args.description db)
    | _, _ => .error "add_task() missing required keyword argument"

/-- `create_mcp_server` / `TodoMCPServer.__init__` → `_register_tools`:
the only `register_tool` call registers `add_task`. -/
def create_mcp_server (h : String → Nat) (newId : String) (now : Nat) : ServerState :=
  register_tool { tools := [], tool_handlers := [] }
    "add_task" "Create a new task for the authenticated user" "AddTaskParams"
    (add_task_handler h newId now)

/-! ### Helper lemmas about the embedding -/

/-- The descending order `list_tasks` sorts by. -/
def descBy (a b : Task) : Prop := b.created_at ≤ a.created_at

theorem perm_insertDesc (t : Task) (l : List Task) :
    List.Perm (insertDesc t l) (t :: l) := by
  induction l with
  | nil => simp [insertDesc]
  | cons u rest ih =>
    unfold insertDesc
    by_cases hc : t.created_at ≤ u.created_at
    · simpa [hc] using ((ih.cons u).trans (List.Perm.swap t u rest))
    · simp [hc]

theorem perm_foldl_insertDesc (l acc : List Task) :
    List.Perm (l.foldl (fun a t => insertDesc t a) acc) (acc ++ l) := by
  induction l generalizing acc with
  | nil => simp
  | cons t rest ih =>
    rw [List.foldl_cons]
    have h1 := ih (insertDesc t acc)
    have h2 : List.Perm (insertDesc t acc ++ rest) ((t :: acc) ++ rest) :=
      (perm_insertDesc t acc).append_right rest
    have h3 : List.Perm ((t :: acc) ++ rest) (acc ++ t :: rest) := List.perm_middle.symm
    exact (h1.trans h2).trans h3

theorem perm_sortDesc (l : List Task) : List.Perm (sortDesc l) l := by
  simpa [sortDesc] using perm_foldl_insertDesc l []

theorem mem_sortDesc (t : Task) (l : List Task) : t ∈ sortDesc l ↔ t ∈ l :=
  (perm_sortDesc l).mem_iff

theorem pairwise_insertDesc (t : Task) (l : List Task)
    (hl : l.Pairwise descBy) : (insertDesc t l).Pairwise descBy := by
  induction l with
  | nil => simp [insertDesc, List.Pairwise]
  | cons u rest ih =>
    rw [List.pairwise_cons] at hl
    unfold insertDesc
    by_cases hc : t.created_at ≤ u.created_at
    · simp only [if_pos hc, List.pairwise_cons]
      refine ⟨fun x hx => ?_, ih hl.2⟩
      rcases List.mem_cons.mp ((perm_insertDesc t rest).mem_iff.mp hx) with hxt | hxr
      · subst hxt; exact hc
      · exact hl.1 x hxr
    · simp only [if_neg hc, List.pairwise_cons]
      refine ⟨fun x hx => ?_, hl.1, hl.2⟩
      rcases List.mem_cons.mp hx with hxu | hxr
      · subst hxu; exact Nat.le_of_lt (Nat.not_le.mp hc)
      · exact Nat.le_trans (hl.1 x hxr) (Nat.le_of_lt (Nat.not_le.mp hc))

theorem pairwise_foldl_insertDesc (l acc : List Task)
    (hacc : acc.Pairwise descBy) :
    (l.foldl (fun a t => insertDesc t a) acc).Pairwise descBy := by
  induction l generalizing acc with
  | nil => simpa
  | cons t rest ih => exact ih (insertDesc t acc) (pairwise_insertDesc t acc hacc)

theorem pairwise_sortDesc (l : List Task) : (sortDesc l).Pairwise descBy :=
  pairwise_foldl_insertDesc l [] (by simp)

theorem filter_insertDesc (t : Task) (l : List Task) (c : Nat)
    (hl : l.Pairwise descBy) :
    (insertDesc t l).filter (fun x => x.created_at == c)
      = l.filter (fun x => x.created_at == c)
        ++ (if t.created_at == c then [t] else []) := by
  induction l with
  | nil => by_cases hc : t.created_at = c <;> simp [insertDesc, hc]
  | cons u rest ih =>
    rw [List.pairwise_cons] at hl
    unfold insertDesc
    by_cases hcond : t.created_at ≤ u.created_at
    · rw [if_pos hcond]
      by_cases hu : u.created_at = c <;>
        simp [List.filter_cons, hu, ih hl.2, List.append_assoc]
    · rw [if_neg hcond]
      by_cases ht : t.created_at = c
      · have hnone : (u :: rest).filter (fun x => x.created_at == c) = [] := by
          rw [List.filter_eq_nil_iff]
          intro x hx
          have hxle : x.created_at ≤ u.created_at := by
            rcases List.mem_cons.mp hx with hxu | hxr
            · subst hxu; exact Nat.le_refl _
            · exact hl.1 x hxr
          have hxlt : x.created_at < c :=
            ht ▸ Nat.lt_of_le_of_lt hxle (Nat.not_le.mp hcond)
          simpa using Nat.ne_of_lt hxlt
        simp [List.filter_cons, ht, hnone]
      · simp [List.filter_cons, ht]

theorem filter_foldl_insertDesc (l acc : List Task) (c : Nat)
    (hacc : acc.Pairwise descBy) :
    (l.foldl (fun a t => insertDesc t a) acc).filter (fun x => x.created_at == c)
      = acc.filter (fun x => x.created_at == c)
        ++ l.filter (fun x => x.created_at == c) := by
  induction l generalizing acc with
  | nil => simp
  | cons t rest ih =>
    have step := ih (insertDesc t acc) (pairwise_insertDesc t acc hacc)
    by_cases ht : t.created_at = c <;>
      simp [step, filter_insertDesc t acc c hacc, List.filter_cons, ht,
        List.append_assoc]

/-- `sortDesc` is stable: rows sharing one creation timestamp keep their
insertion order. -/
theorem filter_sortDesc (l : List Task) (c : Nat) :
    (sortDesc l).filter (fun x => x.created_at == c)
      = l.filter (fun x => x.created_at == c) := by
  simpa [sortDesc] using filter_foldl_insertDesc l [] c (by simp)

theorem findTask_mem (db : List Task) (i u : String) (t : Task)
    (hf : findTask db i u = some t) : t ∈ db ∧ t.id = i ∧ t.user_id = u := by
  have hmem := List.mem_of_find?_eq_some hf
  have hp := List.find?_some hf
  simp only [Bool.and_eq_true, beq_iff_eq] at hp
  exact ⟨hmem, hp.1, hp.2⟩

theorem findTask_eq_none (db : List Task) (i u : String)
    (hnone : ∀ t ∈ db, t.id = i → t.user_id ≠ u) :
    findTask db i u = none := by
  rw [findTask, List.find?_eq_none]
  intro t ht
  simp only [Bool.and_eq_true, beq_iff_eq, not_and]
  exact fun hid => hnone t ht hid

theorem findTask_replaceFirst (db : List Task) (i u : String) (t t' : Task)
    (hf : findTask db i u = some t) (hid : t'.id = i) (hu : t'.user_id = u) :
    findTask (replaceFirst i u t' db) i u = some t' := by
  induction db with
  | nil => simp [findTask] at hf
  | cons a rest ih =>
    by_cases hcond : (a.id == i && a.user_id == u) = true
    · simp [replaceFirst, hcond, findTask, List.find?_cons, hid, hu]
    · have hfalse : (a.id == i && a.user_id == u) = false := by
        simpa using hcond
      simp only [findTask, List.find?_cons, hfalse] at hf
      simp only [replaceFirst, hfalse, Bool.false_eq_true, if_false, findTask,
        List.find?_cons]
      exact ih hf

/-! ### Digit strings and `Nat.repr` (the shape of `str(hash(id) % 10**8)`) -/

theorem isDigit_digitChar (n : Nat) (hn : n < 10) :
    (Nat.digitChar n).isDigit = true := by
  interval_cases n <;> decide

theorem isDigit_of_mem_toDigitsCore (fuel : Nat) :
    ∀ (n : Nat) (ds : List Char), (∀ c ∈ ds, c.isDigit = true) →
      ∀ c ∈ Nat.toDigitsCore 10 fuel n ds, c.isDigit = true := by
  induction fuel with
  | zero => intro n ds hds c hc; exact hds c (by simpa [Nat.toDigitsCore] using hc)
  | succ fuel ih =>
    intro n ds hds c hc
    have hd : ∀ x ∈ Nat.digitChar (n % 10) :: ds, x.isDigit = true := by
      intro x hx
      rcases hx with _ | hx
      · exact isDigit_digitChar _ (Nat.mod_lt _ (by decide))
      · exact hds x (by assumption)
    unfold Nat.toDigitsCore at hc
    by_cases h0 : n / 10 = 0
    · rw [if_pos h0] at hc
      exact hd c hc
    · rw [if_neg h0] at hc
      exact ih (n / 10) _ hd c hc

theorem suffix_toDigitsCore (fuel : Nat) :
    ∀ (n : Nat) (ds : List Char), ds <:+ Nat.toDigitsCore 10 fuel n ds := by
  induction fuel with
  | zero => intro n ds; simp [Nat.toDigitsCore]
  | succ fuel ih =>
    intro n ds
    unfold Nat.toDigitsCore
    by_cases h0 : n / 10 = 0
    · rw [if_pos h0]; exact List.suffix_cons _ _
    · rw [if_neg h0]
      exact (List.suffix_cons _ _).trans (ih (n / 10) _)

theorem toDigits_ne_nil (n : Nat) : Nat.toDigits 10 n ≠ [] := by
  unfold Nat.toDigits Nat.toDigitsCore
  by_cases h0 : n / 10 = 0
  · simp [h0]
  · rw [if_neg h0]
    intro hnil
    have hsuf := suffix_toDigitsCore n (n / 10) [Nat.digitChar (n % 10)]
    rw [hnil] at hsuf
    simp at hsuf

theorem isDigitStr_repr (n : Nat) : isDigitStr (Nat.repr n) = true := by
  have hne := toDigits_ne_nil n
  have hall := isDigit_of_mem_toDigitsCore (n + 1) n [] (by simp)
  rw [Nat.repr, isDigitStr]
  rw [Bool.and_eq_true, List.all_eq_true]
  constructor
  · rw [decide_eq_true_iff]
    have : (Nat.toDigits 10 n).asString.length = (Nat.toDigits 10 n).length := rfl
    rw [this]
    exact List.length_pos.mpr hne
  · intro c hc
    exact hall c (by simpa [Nat.toDigits] using hc)

theorem repr_ne_of_not_digitStr (n : Nat) (s : String)
    (hs : isDigitStr s = false) : Nat.repr n ≠ s := by
  intro heq
  have hd := isDigitStr_repr n
  rw [heq, hs] at hd
  exact Bool.false_ne_true hd

/-! ### Claim theorems -/

/-- C9: `extract_token_from_header` fails with "Authorization header is
required" for every absent or empty header value; fails with the
invalid-format message whenever the header does not split into exactly two
whitespace-separated parts whose first part lowercases to "bearer"; and for
every header splitting as a case-insensitive "Bearer" followed by a token,
returns that second part verbatim. -/
theorem extract_token_from_header_spec :
    (∀ hdr : Option String, hdr = none ∨ hdr = some "" →
      extract_token_from_header hdr = .error "Authorization header is required")
    ∧ (∀ s : String, s ≠ "" →
      (∀ p t, splitWS s = [p, t] → lowerStr p ≠ "bearer") →
      extract_token_from_header (some s)
        = .error "Invalid Authorization header format. Expected: Bearer <token>")
    ∧ (∀ s p t : String, splitWS s = [p, t] → lowerStr p = "bearer" →
      extract_token_from_header (some s) = .ok t) := by
  refine ⟨?_, ?_, ?_⟩
  · rintro hdr (rfl | rfl) <;> rfl
  · intro s hs hparts
    have hne : s.isEmpty = false := by
      rw [Bool.eq_false_iff]
      intro hemp
      exact hs ((String.isEmpty_iff s).mp hemp)
    rcases hsp : splitWS s with _ | ⟨p, _ | ⟨t, _ | ⟨x, rest⟩⟩⟩
    · simp [extract_token_from_header, hne, hsp]
    · simp [extract_token_from_header, hne, hsp]
    · have hb : (lowerStr p == "bearer") = false := by
        rw [beq_eq_false_iff_ne]
        exact hparts p t hsp
      simp [extract_token_from_header, hne, hsp, hb]
    · simp [extract_token_from_header, hne, hsp]
  · intro s p t hsp hb
    have hs : s ≠ "" := by
      intro hemp
      rw [hemp] at hsp
      simp [splitWS, splitWSAux] at hsp
    have hne : s.isEmpty = false := by
      rw [Bool.eq_false_iff]
      intro hemp
      exact hs ((String.isEmpty_iff s).mp hemp)
    have hbeq : (lowerStr p == "bearer") = true := by
      rw [beq_iff_eq]; exact hb
    simp [extract_token_from_header, hne, hsp, hbeq]

/-- C2 (evaluation at the failing input): dispatching an unregistered tool
name makes `call_tool` raise `ValueError(f"Tool '{name}' not found")` —
modelled as `Except.error` — instead of returning an error envelope; the
`raise` sits before the `try` block, so it propagates to the caller. -/
theorem call_tool_unregistered_raises :
    call_tool (create_mcp_server (fun _ => 0) "id-0" 0) "non_existent_tool"
      { user_id := none, title := none, description := none,
        task_id := none, status := none } []
      = .error "Tool 'non_existent_tool' not found" := rfl

/-- C3: for a registered tool name the dispatcher always returns (never
raises): a handler that completes yields its own envelope, and a handler that
raises is caught at the dispatch boundary and converted into an `isError`
envelope whose single text item embeds the exception message. -/
theorem call_tool_catches_handler_exceptions (st : ServerState) (name : String)
    (hdl : Handler) (args : ToolArgs) (db : List Task)
    (hreg : lookupHandler st name = some hdl) :
    (∃ r, call_tool st name args db = .ok r)
    ∧ (∀ msg, hdl args db = .error msg →
      call_tool st name args db
        = .ok ({ content := [{ type := "text",
                               text := "Error calling tool: " ++ msg }],
                 isError := true, structuredContent := none }, db)) := by
  constructor
  · cases hr : hdl args db with
    | ok r => exact ⟨r, by simp [call_tool, hreg, hr]⟩
    | error msg =>
        exact ⟨({ content := [{ type := "text",
                                text := "Error calling tool: " ++ msg }],
                  isError := true, structuredContent := none }, db),
          by simp [call_tool, hreg, hr]⟩
  · intro msg hmsg
    simp [call_tool, hreg, hmsg]

/-- Arguments object carrying no keyword at all. -/
def noArgs : ToolArgs :=
  { user_id := none, title := none, description := none,
    task_id := none, status := none }

/-- A handler that raises unconditionally, for exercising the dispatch
boundary. -/
def raisingHandler : Handler := fun _ _ => .error "boom"

/-- A one-tool server whose handler raises. -/
def raisingServer : ServerState :=
  { tools := [{ name := "t1", description := "d", inputSchema := "s" }],
    tool_handlers := [("t1", raisingHandler)] }

theorem call_tool_catches_handler_exceptions_witness :
    (∃ r, call_tool raisingServer "t1" noArgs [] = .ok r)
    ∧ (∀ msg, raisingHandler noArgs [] = .error msg →
      call_tool raisingServer "t1" noArgs []
        = .ok ({ content := [{ type := "text",
                               text := "Error calling tool: " ++ msg }],
                 isError := true, structuredContent := none }, [])) :=
  call_tool_catches_handler_exceptions raisingServer "t1" raisingHandler
    noArgs [] rfl

theorem extract_token_from_header_spec_witness :
    extract_token_from_header (some "Basic abc")
      = .error "Invalid Authorization header format. Expected: Bearer <token>"
    ∧ extract_token_from_header (some "Bearer tok123") = .ok "tok123"
    ∧ extract_token_from_header none = .error "Authorization header is required" := by
  refine ⟨?_, ?_, ?_⟩
  · apply extract_token_from_header_spec.2.1 "Basic abc" (by decide)
    intro p t hpt
    have h0 : ["Basic", "abc"] = [p, t] := hpt
    have hp : p = "Basic" := by
      injection h0 with h1 _
      exact h1.symm
    rw [hp]
    decide
  · exact extract_token_from_header_spec.2.2 "Bearer tok123" "Bearer" "tok123"
      rfl (by decide)
  · exact extract_token_from_header_spec.1 none (Or.inl rfl)

/-- C4 (evaluation of the constructed registry): `_register_tools` registers
exactly one tool, `add_task`; the other four task tools are absent from both
the discovery list and the handler table. -/
theorem register_tools_only_add_task (h : String → Nat) (newId : String) (now : Nat) :
    (get_tools_list (create_mcp_server h newId now)).map ToolInfo.name = ["add_task"]
    ∧ lookupHandler (create_mcp_server h newId now) "list_tasks" = none
    ∧ lookupHandler (create_mcp_server h newId now) "complete_task" = none
    ∧ lookupHandler (create_mcp_server h newId now) "update_task" = none
    ∧ lookupHandler (create_mcp_server h newId now) "delete_task" = none :=
  ⟨rfl, rfl, rfl, rfl, rfl⟩

/-- C7: toggling a caller-owned task twice with `complete_task` returns its
completion flag to the original value; id, owner, title, description and
creation timestamp are untouched throughout. -/
theorem complete_task_double_toggle (h : String → Nat) (now1 now2 : Nat)
    (u : String) (tid : TaskId) (db : List Task) (t : Task)
    (hu : validUserId u = true)
    (hf : findTask db tid.pyStr u = some t) :
    ∃ t', findTask (complete_task h now2 u tid
            (complete_task h now1 u tid db).2).2 tid.pyStr u = some t'
      ∧ t'.completed = t.completed
      ∧ t'.id = t.id ∧ t'.user_id = t.user_id ∧ t'.title = t.title
      ∧ t'.description = t.description ∧ t'.created_at = t.created_at := by
  obtain ⟨-, hid, huser⟩ := findTask_mem db tid.pyStr u t hf
  set t1 : Task := { t with completed := !t.completed, updated_at := some now1 }
    with ht1
  have hdb1 : (complete_task h now1 u tid db).2 = replaceFirst tid.pyStr u t1 db := by
    simp [complete_task, hu, hf, ht1]
  have hf1 : findTask (replaceFirst tid.pyStr u t1 db) tid.pyStr u = some t1 :=
    findTask_replaceFirst db tid.pyStr u t t1 hf hid huser
  set t2 : Task := { t1 with completed := !t1.completed, updated_at := some now2 }
    with ht2
  have hdb2 : (complete_task h now2 u tid (replaceFirst tid.pyStr u t1 db)).2
      = replaceFirst tid.pyStr u t2 (replaceFirst tid.pyStr u t1 db) := by
    simp [complete_task, hu, hf1, ht2]
  have hf2 := findTask_replaceFirst (replaceFirst tid.pyStr u t1 db)
    tid.pyStr u t1 t2 hf1 hid huser
  refine ⟨t2, ?_, ?_, rfl, rfl, rfl, rfl, rfl⟩
  · rw [hdb1, hdb2]
    exact hf2
  · simp [ht2, ht1, Bool.not_not]

/-- A sample stored task used by the concrete witnesses. -/
def sampleTask : Task :=
  { id := "9d1c0e7a-5b2f-4c3d-8e6f-000000000001", user_id := "u1",
    title := "Buy milk", description := none, completed := false,
    created_at := 3, updated_at := none }

theorem complete_task_double_toggle_witness :
    ∃ t', findTask (complete_task (fun _ => 5) 12 "u1"
            (.str "9d1c0e7a-5b2f-4c3d-8e6f-000000000001")
            (complete_task (fun _ => 5) 11 "u1"
              (.str "9d1c0e7a-5b2f-4c3d-8e6f-000000000001") [sampleTask]).2).2
          (TaskId.str "9d1c0e7a-5b2f-4c3d-8e6f-000000000001").pyStr "u1" = some t'
      ∧ t'.completed = sampleTask.completed
      ∧ t'.id = sampleTask.id ∧ t'.user_id = sampleTask.user_id
      ∧ t'.title = sampleTask.title
      ∧ t'.description = sampleTask.description
      ∧ t'.created_at = sampleTask.created_at :=
  complete_task_double_toggle (fun _ => 5) 11 12 "u1"
    (.str "9d1c0e7a-5b2f-4c3d-8e6f-000000000001") [sampleTask] sampleTask
    (by decide) rfl

/-- C8: `update_task` with neither field supplied returns a ValidationError
envelope and leaves the store untouched; with exactly one field supplied it
succeeds, writes that field, and leaves the other field and the task's owner,
id, creation timestamp and completion flag unchanged. -/
theorem update_task_validation_and_frame (h : String → Nat) (now : Nat)
    (u : String) (tid : TaskId) (db : List Task) (t : Task)
    (newTitle newDesc : String)
    (hu : validUserId u = true)
    (ht : validTitle newTitle = true)
    (hd : validDescription (some newDesc) = true)
    (hf : findTask db tid.pyStr u = some t) :
    (update_task h now u tid none none db
      = (create_error_response
          (ValidationError "update_task parameter validation failed"), db))
    ∧ (∃ t', update_task h now u tid (some newTitle) none db
        = (create_success_response
            ("Task '" ++ newTitle ++ "' updated successfully")
            (some (.task (taskIdOut h t.id) "updated" newTitle
              "Task updated successfully")),
           replaceFirst tid.pyStr u t' db)
        ∧ t'.title = newTitle ∧ t'.description = t.description
        ∧ t'.user_id = t.user_id ∧ t'.id = t.id
        ∧ t'.created_at = t.created_at ∧ t'.completed = t.completed)
    ∧ (∃ t', update_task h now u tid none (some newDesc) db
        = (create_success_response
            ("Task '" ++ t.title ++ "' updated successfully")
            (some (.task (taskIdOut h t.id) "updated" t.title
              "Task updated successfully")),
           replaceFirst tid.pyStr u t' db)
        ∧ t'.description = some newDesc ∧ t'.title = t.title
        ∧ t'.user_id = t.user_id ∧ t'.id = t.id
        ∧ t'.created_at = t.created_at ∧ t'.completed = t.completed) := by
  refine ⟨?_, ?_, ?_⟩
  · simp [update_task]
  · refine ⟨{ t with title := newTitle, updated_at := some now }, ?_, rfl, rfl,
      rfl, rfl, rfl, rfl⟩
    simp [update_task, validDescription, hu, ht, hf]
  · refine ⟨{ t with description := some newDesc, updated_at := some now }, ?_,
      rfl, rfl, rfl, rfl, rfl, rfl⟩
    have hd' : newDesc.length ≤ 1000 := by simpa [validDescription] using hd
    simp [update_task, validDescription, hu, hf, Nat.not_lt.mpr hd']

theorem update_task_validation_and_frame_witness :
    (update_task (fun _ => 5) 20 "u1"
        (.str "9d1c0e7a-5b2f-4c3d-8e6f-000000000001") none none [sampleTask]
      = (create_error_response
          (ValidationError "update_task parameter validation failed"),
         [sampleTask]))
    ∧ (∃ t', update_task (fun _ => 5) 20 "u1"
          (.str "9d1c0e7a-5b2f-4c3d-8e6f-000000000001") (some "Buy bread") none
          [sampleTask]
        = (create_success_response "Task 'Buy bread' updated successfully"
            (some (.task (taskIdOut (fun _ => 5) sampleTask.id) "updated"
              "Buy bread" "Task updated successfully")),
           replaceFirst (TaskId.str "9d1c0e7a-5b2f-4c3d-8e6f-000000000001").pyStr
             "u1" t' [sampleTask])
        ∧ t'.title = "Buy bread" ∧ t'.description = sampleTask.description
        ∧ t'.user_id = sampleTask.user_id ∧ t'.id = sampleTask.id
        ∧ t'.created_at = sampleTask.created_at
        ∧ t'.completed = sampleTask.completed)
    ∧ (∃ t', update_task (fun _ => 5) 20 "u1"
          (.str "9d1c0e7a-5b2f-4c3d-8e6f-000000000001") none (some "2 litres")
          [sampleTask]
        = (create_success_response "Task 'Buy milk' updated successfully"
            (some (.task (taskIdOut (fun _ => 5) sampleTask.id) "updated"
              "Buy milk" "Task updated successfully")),
           replaceFirst (TaskId.str "9d1c0e7a-5b2f-4c3d-8e6f-000000000001").pyStr
             "u1" t' [sampleTask])
        ∧ t'.description = some "2 litres" ∧ t'.title = sampleTask.title
        ∧ t'.user_id = sampleTask.user_id ∧ t'.id = sampleTask.id
        ∧ t'.created_at = sampleTask.created_at
        ∧ t'.completed = sampleTask.completed) :=
  update_task_validation_and_frame (fun _ => 5) 20 "u1"
    (.str "9d1c0e7a-5b2f-4c3d-8e6f-000000000001") [sampleTask] sampleTask
    "Buy bread" "2 litres" (by decide) (by decide) (by decide) rfl

/-- C1: per-user isolation.  When every stored task carrying the looked-up id
belongs to B and the caller is A ≠ B: `list_tasks` selects only A's rows (so
never B's task); `complete_task`, `update_task` and `delete_task` return the
NotFoundError envelope and leave the store untouched; and that envelope is
identical to the one produced on any store holding no task with that id at
all. -/
theorem per_user_isolation (h : String → Nat) (nowc nowu : Nat)
    (A B : String) (tid : TaskId) (db : List Task) (newTitle : String)
    (hA : validUserId A = true) (hAB : A ≠ B)
    (ht : validTitle newTitle = true)
    (hown : ∀ t ∈ db, t.id = tid.pyStr → t.user_id = B) :
    (∀ s t, t ∈ selectTasks db A s → t.user_id = A)
    ∧ (∀ t ∈ db, t.user_id = B → ∀ s, t ∉ selectTasks db A s)
    ∧ complete_task h nowc A tid db
        = (create_error_response (NotFoundError "Task" tid.pyStr), db)
    ∧ update_task h nowu A tid (some newTitle) none db
        = (create_error_response (NotFoundError "Task" tid.pyStr), db)
    ∧ delete_task h A tid db
        = (create_error_response (NotFoundError "Task" tid.pyStr), db)
    ∧ (∀ db2 : List Task, (∀ t ∈ db2, t.id ≠ tid.pyStr) →
        (complete_task h nowc A tid db2).1 = (complete_task h nowc A tid db).1
        ∧ (update_task h nowu A tid (some newTitle) none db2).1
            = (update_task h nowu A tid (some newTitle) none db).1
        ∧ (delete_task h A tid db2).1 = (delete_task h A tid db).1) := by
  have hnone : findTask db tid.pyStr A = none :=
    findTask_eq_none db tid.pyStr A
      (fun t htm hid => by rw [hown t htm hid]; exact fun hB => hAB hB.symm)
  have hc : complete_task h nowc A tid db
      = (create_error_response (NotFoundError "Task" tid.pyStr), db) := by
    simp [complete_task, hA, hnone]
  have hup : update_task h nowu A tid (some newTitle) none db
      = (create_error_response (NotFoundError "Task" tid.pyStr), db) := by
    simp [update_task, validDescription, hA, ht, hnone]
  have hdel : delete_task h A tid db
      = (create_error_response (NotFoundError "Task" tid.pyStr), db) := by
    simp [delete_task, hA, hnone]
  refine ⟨?_, ?_, hc, hup, hdel, ?_⟩
  · intro s t hmem
    rw [selectTasks, mem_sortDesc, List.mem_filter, Bool.and_eq_true,
      beq_iff_eq] at hmem
    exact hmem.2.1
  · intro t htm hB s hmem
    rw [selectTasks, mem_sortDesc, List.mem_filter, Bool.and_eq_true,
      beq_iff_eq] at hmem
    exact hAB (hmem.2.1.symm.trans hB)
  · intro db2 hdb2
    have hnone2 : findTask db2 tid.pyStr A = none :=
      findTask_eq_none db2 tid.pyStr A
        (fun t htm hid => absurd hid (hdb2 t htm))
    refine ⟨?_, ?_, ?_⟩
    · rw [hc]; simp [complete_task, hA, hnone2]
    · rw [hup]; simp [update_task, validDescription, hA, ht, hnone2]
    · rw [hdel]; simp [delete_task, hA, hnone2]

/-- A second sample task, owned by another user, used by the witnesses. -/
def otherTask : Task :=
  { id := "b2222222-0000-4000-8000-000000000002", user_id := "u2",
    title := "Walk dog", description := none, completed := false,
    created_at := 4, updated_at := none }

theorem per_user_isolation_witness :
    (∀ s t, t ∈ selectTasks [otherTask] "u1" s → t.user_id = "u1")
    ∧ (∀ t ∈ [otherTask], t.user_id = "u2" → ∀ s,
        t ∉ selectTasks [otherTask] "u1" s)
    ∧ complete_task (fun _ => 5) 21 "u1"
        (.str "b2222222-0000-4000-8000-000000000002") [otherTask]
      = (create_error_response
          (NotFoundError "Task"
            (TaskId.str "b2222222-0000-4000-8000-000000000002").pyStr),
         [otherTask])
    ∧ update_task (fun _ => 5) 22 "u1"
        (.str "b2222222-0000-4000-8000-000000000002") (some "Hijack") none
        [otherTask]
      = (create_error_response
          (NotFoundError "Task"
            (TaskId.str "b2222222-0000-4000-8000-000000000002").pyStr),
         [otherTask])
    ∧ delete_task (fun _ => 5) "u1"
        (.str "b2222222-0000-4000-8000-000000000002") [otherTask]
      = (create_error_response
          (NotFoundError "Task"
            (TaskId.str "b2222222-0000-4000-8000-000000000002").pyStr),
         [otherTask])
    ∧ (∀ db2 : List Task,
        (∀ t ∈ db2, t.id ≠
          (TaskId.str "b2222222-0000-4000-8000-000000000002").pyStr) →
        (complete_task (fun _ => 5) 21 "u1"
            (.str "b2222222-0000-4000-8000-000000000002") db2).1
          = (complete_task (fun _ => 5) 21 "u1"
              (.str "b2222222-0000-4000-8000-000000000002") [otherTask]).1
        ∧ (update_task (fun _ => 5) 22 "u1"
            (.str "b2222222-0000-4000-8000-000000000002") (some "Hijack") none
            db2).1
          = (update_task (fun _ => 5) 22 "u1"
              (.str "b2222222-0000-4000-8000-000000000002") (some "Hijack")
              none [otherTask]).1
        ∧ (delete_task (fun _ => 5) "u1"
            (.str "b2222222-0000-4000-8000-000000000002") db2).1
          = (delete_task (fun _ => 5) "u1"
              (.str "b2222222-0000-4000-8000-000000000002") [otherTask]).1) :=
  per_user_isolation (fun _ => 5) 21 22 "u1" "u2"
    (.str "b2222222-0000-4000-8000-000000000002") [otherTask] "Hijack"
    (by decide) (by decide) (by decide)
    (by intro t htm hid; rcases List.mem_singleton.mp htm with rfl; rfl)

/-- C6: `list_tasks` returns exactly the caller's rows filtered by the status
enum — each status value characterised by a membership equivalence — ordered
by creation timestamp descending with ties kept in insertion order (stable
filter identity), and any status outside the enum yields a ValidationError
envelope. -/
theorem list_tasks_filter_and_order (h : String → Nat) (u : String)
    (db : List Task) (hu : validUserId u = true) :
    (∀ s, validStatus s = true →
      list_tasks h u s db
        = create_success_response
            ("Retrieved " ++ Nat.repr ((selectTasks db u s).map (toItem h)).length
              ++ " task(s) with status '" ++ s ++ "'")
            (some (.list ((selectTasks db u s).map (toItem h))
              ((selectTasks db u s).map (toItem h)).length "success")))
    ∧ (∀ t, t ∈ selectTasks db u "completed"
        ↔ t ∈ db ∧ t.user_id = u ∧ t.completed = true)
    ∧ (∀ t, t ∈ selectTasks db u "pending"
        ↔ t ∈ db ∧ t.user_id = u ∧ t.completed = false)
    ∧ (∀ t, t ∈ selectTasks db u "all" ↔ t ∈ db ∧ t.user_id = u)
    ∧ (∀ s, (selectTasks db u s).Pairwise descBy)
    ∧ (∀ s c, (selectTasks db u s).filter (fun x => x.created_at == c)
        = (db.filter (fun x => x.user_id == u && statusMatch s x)).filter
            (fun x => x.created_at == c))
    ∧ (∀ s, validStatus s = false →
      list_tasks h u s db
        = create_error_response
            (ValidationError "list_tasks parameter validation failed")) := by
  refine ⟨?_, ?_, ?_, ?_, ?_, ?_, ?_⟩
  · intro s hs
    simp [list_tasks, hu, hs]
  · intro t
    rw [selectTasks, mem_sortDesc, List.mem_filter, Bool.and_eq_true, beq_iff_eq]
    have hsm : statusMatch "completed" t = t.completed := rfl
    rw [hsm]
  · intro t
    rw [selectTasks, mem_sortDesc, List.mem_filter, Bool.and_eq_true, beq_iff_eq]
    have hsm : statusMatch "pending" t = !t.completed := rfl
    rw [hsm, Bool.not_eq_true']
  · intro t
    rw [selectTasks, mem_sortDesc, List.mem_filter, Bool.and_eq_true, beq_iff_eq]
    have hsm : statusMatch "all" t = true := rfl
    rw [hsm]
    tauto
  · intro s
    exact pairwise_sortDesc _
  · intro s c
    exact filter_sortDesc _ c
  · intro s hs
    simp [list_tasks, hu, hs]

theorem list_tasks_filter_and_order_witness :
    (∀ t, t ∈ selectTasks [sampleTask, otherTask] "u1" "pending"
      ↔ t ∈ [sampleTask, otherTask] ∧ t.user_id = "u1" ∧ t.completed = false)
    ∧ list_tasks (fun _ => 5) "u1" "bogus" [sampleTask, otherTask]
        = create_error_response
            (ValidationError "list_tasks parameter validation failed") :=
  ⟨(list_tasks_filter_and_order (fun _ => 5) "u1" [sampleTask, otherTask]
      (by decide)).2.2.1,
   (list_tasks_filter_and_order (fun _ => 5) "u1" [sampleTask, otherTask]
      (by decide)).2.2.2.2.2.2 "bogus" (by decide)⟩

/-- The hash parameter used in the concrete run of the spec scenario. -/
def c5hash : String → Nat := fun _ => 77

/-- The UUID the task default factory yields in the concrete run. -/
def c5uuid : String := "123e4567-e89b-12d3-a456-426614174000"

/-- C5 (evaluation at the failing input): starting from an empty store,
`add_task(title="Buy milk")` succeeds and reports the structured
`task_id` `hash(uuid) % 10**8` (here 77), but `complete_task(task_id=77)`
then stringifies 77 and compares it against the stored UUID primary key, so
it returns the NotFoundError envelope instead of `status="completed"`: the
scenario already breaks at its second step. -/
theorem scenario_buy_milk_breaks :
    (add_task c5hash c5uuid 10 "u1" "Buy milk" none []).1.structuredContent
      = some (.task 77 "created" "Buy milk" "Task created successfully")
    ∧ complete_task c5hash 11 "u1" (.num 77)
        (add_task c5hash c5uuid 10 "u1" "Buy milk" none []).2
      = (create_error_response (NotFoundError "Task" "77"),
         (add_task c5hash c5uuid 10 "u1" "Buy milk" none []).2) :=
  ⟨rfl, rfl⟩

/-- C10: whenever a stored identifier is not a pure digit string (the default:
UUIDs), every reported `task_id` is `hash(id) % 10**8`, not the identifier:
its decimal string never equals the identifier, two distinct identifiers can
collide on it, and feeding it back to `complete_task` against a store whose
ids are all non-digit strings yields NotFoundError. -/
theorem reported_task_id_is_hash_not_identifier (h : String → Nat)
    (id : String) (hnd : isDigitStr id = false) :
    taskIdOut h id = h id % 10 ^ 8
    ∧ Nat.repr (taskIdOut h id) ≠ id
    ∧ (∀ t : Task, (toItem h t).id = taskIdOut h t.id)
    ∧ (∀ newId now u ttl d db, validUserId u = true → validTitle ttl = true →
        validDescription d = true → isDigitStr newId = false →
        (add_task h newId now u ttl d db).1.structuredContent
          = some (.task (h newId % 10 ^ 8) "created" ttl
              "Task created successfully"))
    ∧ (∃ h2 : String → Nat, ∃ a b : String, a ≠ b
        ∧ isDigitStr a = false ∧ isDigitStr b = false
        ∧ taskIdOut h2 a = taskIdOut h2 b)
    ∧ (∀ now u db, validUserId u = true →
        (∀ t ∈ db, isDigitStr t.id = false) →
        complete_task h now u (.num (taskIdOut h id)) db
          = (create_error_response
              (NotFoundError "Task" (Nat.repr (taskIdOut h id))), db)) := by
  refine ⟨by simp [taskIdOut, hnd], repr_ne_of_not_digitStr _ id hnd,
    fun t => rfl, ?_, ⟨fun _ => 0, "a", "b", by decide, rfl, rfl, rfl⟩, ?_⟩
  · intro newId now u ttl d db hvu hvt hvd hndNew
    simp [add_task, create_success_response, hvu, hvt, hvd, taskIdOut, hndNew]
  · intro now u db hvu hids
    have hnone : findTask db (Nat.repr (taskIdOut h id)) u = none := by
      rw [findTask, List.find?_eq_none]
      intro t htm
      have hne : t.id ≠ Nat.repr (taskIdOut h id) :=
        fun heq => repr_ne_of_not_digitStr (taskIdOut h id) t.id (hids t htm) heq.symm
      simp [hne]
    simp [complete_task, TaskId.pyStr, hvu, hnone]

theorem reported_task_id_is_hash_not_identifier_witness :
    taskIdOut c5hash c5uuid = c5hash c5uuid % 10 ^ 8
    ∧ Nat.repr (taskIdOut c5hash c5uuid) ≠ c5uuid
    ∧ complete_task c5hash 11 "u1" (.num (taskIdOut c5hash c5uuid)) [sampleTask]
        = (create_error_response
            (NotFoundError "Task" (Nat.repr (taskIdOut c5hash c5uuid))),
           [sampleTask]) := by
  have main := reported_task_id_is_hash_not_identifier c5hash c5uuid (by decide)
  exact ⟨main.1, main.2.1,
    main.2.2.2.2.2 11 "u1" [sampleTask] (by decide)
      (by intro t htm; rcases List.mem_singleton.mp htm with rfl; decide)⟩

end Mcp
